import Mathlib

/-!
# Verification of the authentication and credential-management flow

Shallow embedding of the sign-in, profile-update and password-change logic
of the blog application (Remix routes plus the `updatePassword` service),
together with theorems settling the specification claims about them.

Route handlers are embedded as pure functions from their inputs (database
contents, session identity, URL parameter, parsed form fields) to an
`ActionOutput` recording the HTTP-level reply, the resulting database and
the list of database operations performed.  External collaborators that are
not part of the repository sources (the bcryptjs hasher, the remix-auth
authenticator, the remix session storage, the `updateProfile` service) are
modelled from the specification; each such definition carries a
`Modelled from the spec:` doc comment.
-/

namespace MsTechBlog

/-- User role, from the Prisma schema (`enum Role { USER ADMIN }`). -/
inductive Role where
  | USER
  | ADMIN
  deriving DecidableEq, Repr

/-- A row of the `User` table, restricted to the fields the verified flows
touch (`model User` in the Prisma schema; timestamps, relations and the
provider field play no role in the claims). -/
structure DBUser where
  id : String
  email : String
  password : String
  name : String
  image : Option String
  role : Role
  deriving DecidableEq, Repr

/-- The relational store, modelled as the list of user rows. -/
abbrev DB := List DBUser

/-- `db.user.findUnique({ where: { id } })`: `id` is the primary key. -/
def findById (db : DB) (userId : String) : Option DBUser :=
  db.find? (fun u => u.id == userId)

/-- `db.user.findUnique({ where: { email } })`: `email` is `@unique`. -/
def findByEmail (db : DB) (email : String) : Option DBUser :=
  db.find? (fun u => u.email == email)

/-- A database operation, used to record which rows a handler read or
wrote (the claims about "no store access" and "only the caller's row"
are stated over this log). -/
inductive DbOp where
  | readUser (id : String)
  | writeUser (id : String)
  deriving DecidableEq, Repr

/-- Modelled from the spec: `bcrypt.hash(plaintext, cost)` from the external
bcryptjs dependency.  The spec contract (§4.1) is
`hash(plaintext) -> digest` with a fixed work factor; the model makes the
digest an injective encoding of the cost and the plaintext.  The random
salt of real bcrypt is immaterial to the claims and is not modelled. -/
def bcryptHash (plaintext : String) (cost : Nat) : String :=
  toString cost ++ "$" ++ plaintext

/-- Modelled from the spec: `bcrypt.compare(plaintext, digest)` from the
external bcryptjs dependency; `verify(plaintext, digest) -> boolean`
(§4.1).  All digests in this repository are produced at cost factor 12. -/
def bcryptCompare (plaintext digest : String) : Bool :=
  digest == bcryptHash plaintext 12

/-- Input of `updatePassword` (`UpdatePasswordInput` in
`updatePassword.server.ts`). -/
structure UpdatePasswordInput where
  userId : String
  currentPassword : String
  newPassword : String
  deriving DecidableEq, Repr

/-- `updatePassword` from
`src/app/services/password_change/updatePassword.server.ts`.
Returns `some message` for the `{ error: { message } }` results and `none`
for the final `return null`, together with the resulting database and the
log of row operations. -/
def updatePassword (db : DB) (request : UpdatePasswordInput) :
    Option String × DB × List DbOp :=
  match findById db request.userId with
  | none => (some "User not found", db, [DbOp.readUser request.userId])
  | some updateUser =>
    if !(bcryptCompare request.currentPassword updateUser.password) then
      (some "Current password is incorrect", db, [DbOp.readUser request.userId])
    else
      let hashedPassword := bcryptHash request.newPassword 12
      (none,
       db.map (fun w =>
         if w.id = request.userId then { w with password := hashedPassword } else w),
       [DbOp.readUser request.userId, DbOp.writeUser request.userId])

/-! ## Session identities, cookies and session storage -/

/-- The identity stored in the session: the minimal public record
(id, email, name, role, image) per the spec glossary and §6. -/
structure SessionUser where
  id : String
  email : String
  name : String
  role : Role
  image : Option String
  deriving DecidableEq, Repr

/-- Project a user row to its session identity. -/
def toSessionUser (u : DBUser) : SessionUser :=
  { id := u.id, email := u.email, name := u.name, role := u.role, image := u.image }

/-- The session container: the one key the application stores
(`authenticator.sessionKey`) holds an identity or nothing. -/
structure SessionData where
  identity : Option SessionUser
  deriving DecidableEq, Repr

/-- A signed session cookie.  The signing and serialisation are
collaborator-defined (§6); the model keeps the payload abstractly as the
session contents it encodes. -/
structure Cookie where
  payload : Option SessionUser
  deriving DecidableEq, Repr

/-- Modelled from the spec: `sessionStorage.getSession(cookieHeader)` of the
remix session storage (§4.2 `read(request) -> session|empty`).  An absent
cookie yields the empty session. -/
def getSession (cookie : Option Cookie) : SessionData :=
  { identity := cookie.bind (fun c => c.payload) }

/-- Modelled from the spec: `session.set(authenticator.sessionKey, value)`
(§4.2 `set(session, identity)`): the single modelled key is overwritten. -/
def sessionSet (_s : SessionData) (u : SessionUser) : SessionData :=
  { identity := some u }

/-- Modelled from the spec: `sessionStorage.commitSession(session)` (§4.2
`commit(session) -> Set-Cookie header value`). -/
def commitSession (s : SessionData) : Cookie :=
  { payload := s.identity }

/-! ## Form parsing (`parseWithZod` with the route schemas) -/

/-- Outcome of `parseWithZod`: a parsed value, or the field-level errors of
a failed submission. -/
inductive ParseResult (α : Type) where
  | ok (value : α)
  | err (fieldErrors : List (String × List String))
  deriving DecidableEq, Repr

/-- Whether a parse failed. -/
def ParseResult.isErr {α : Type} : ParseResult α → Bool
  | .ok _ => false
  | .err _ => true

/-- Checks of `z.string().min(8).max(255).refine(letter-and-digit)`, the
password shape shared by `signInSchema.password` and
`passwordChangeSchema.newPassword`.  `min`/`max` issues are collected by
the inner string schema; the `.refine` runs only once the inner schema
succeeds, and `/[A-Za-z]/` and `/[0-9]/` are the ASCII classes
`Char.isAlpha` and `Char.isDigit`. -/
def zodPasswordIssues (p : String) : List String :=
  let base :=
    (if 8 ≤ p.length then [] else ["Password must be at least 8 characters"]) ++
    (if p.length ≤ 255 then [] else ["Password must be less than 255 characters"])
  if base.isEmpty then
    if p.data.any Char.isAlpha && p.data.any Char.isDigit then []
    else ["Password must contain at least one letter and one number"]
  else base

/-- Models `z.string().email()` of the external zod dependency: the exact
email regex is collaborator-defined and immaterial to every claim; the
model accepts exactly the strings with one `@` that is neither the first
nor the last character. -/
def zodIsEmail (s : String) : Bool :=
  s.data.count '@' == 1 &&
  s.data.head? != some '@' &&
  s.data.getLast? != some '@'

/-- Raw fields of a password-change submission; `none` is an absent field. -/
structure PasswordChangeForm where
  currentPassword : Option String
  newPassword : Option String
  confirmNewPassword : Option String
  deriving DecidableEq, Repr

/-- A successfully parsed password-change submission. -/
structure PasswordChangeValue where
  currentPassword : String
  newPassword : String
  confirmNewPassword : String
  deriving DecidableEq, Repr

/-- `parseWithZod(formData, { schema: passwordChangeSchema })` from the
password-change route: each field is required, `newPassword` must satisfy
the password shape, and the object-level `.refine` (which runs only when
all fields parse) requires `newPassword === confirmNewPassword`. -/
def parsePasswordChange (f : PasswordChangeForm) :
    ParseResult PasswordChangeValue :=
  let curErrs : List String :=
    match f.currentPassword with
    | none => ["Current password is required"]
    | some _ => []
  let newErrs : List String :=
    match f.newPassword with
    | none => ["New password is required"]
    | some p => zodPasswordIssues p
  let confErrs : List String :=
    match f.confirmNewPassword with
    | none => ["Please confirm your new password"]
    | some _ => []
  let fieldErrs :=
    (if curErrs.isEmpty then [] else [("currentPassword", curErrs)]) ++
    (if newErrs.isEmpty then [] else [("newPassword", newErrs)]) ++
    (if confErrs.isEmpty then [] else [("confirmNewPassword", confErrs)])
  match f.currentPassword, f.newPassword, f.confirmNewPassword with
  | some c, some n, some cf =>
    if fieldErrs.isEmpty then
      if n = cf then .ok { currentPassword := c, newPassword := n, confirmNewPassword := cf }
      else .err [("confirmNewPassword", ["Passwords do not match"])]
    else .err fieldErrs
  | _, _, _ => .err fieldErrs

/-- Raw fields of a sign-in submission. -/
structure SignInForm where
  email : Option String
  password : Option String
  deriving DecidableEq, Repr

/-- A successfully parsed sign-in submission. -/
structure SignInValue where
  email : String
  password : String
  deriving DecidableEq, Repr

/-- `parseWithZod(formData, { schema: signInSchema })` from the sign-in
route: `email` is required, must be an email address and at most 255
characters; `password` is required and must satisfy the password shape. -/
def parseSignIn (f : SignInForm) : ParseResult SignInValue :=
  let emailErrs : List String :=
    match f.email with
    | none => ["Email is required"]
    | some e =>
      (if zodIsEmail e then [] else ["Please enter a valid email address"]) ++
      (if e.length ≤ 255 then [] else ["Email must be less than 255 characters"])
  let passwordErrs : List String :=
    match f.password with
    | none => ["Password is required"]
    | some p => zodPasswordIssues p
  let fieldErrs :=
    (if emailErrs.isEmpty then [] else [("email", emailErrs)]) ++
    (if passwordErrs.isEmpty then [] else [("password", passwordErrs)])
  match f.email, f.password with
  | some e, some p =>
    if fieldErrs.isEmpty then .ok { email := e, password := p }
    else .err fieldErrs
  | _, _ => .err fieldErrs

/-- Raw fields of a profile-update submission; the nullable `image` and
`bio` fields use `none` for a null/absent value. -/
structure ProfileForm where
  image : Option String
  name : Option String
  email : Option String
  bio : Option String
  deriving DecidableEq, Repr

/-- A successfully parsed profile-update submission. -/
structure ProfileValue where
  image : Option String
  name : String
  email : String
  bio : Option String
  deriving DecidableEq, Repr

/-- `parseWithZod(formData, { schema: schemaForUpdateProfile })` from the
profile-update route: `name` required with at most 255 characters, `email`
required and an email address, `bio` nullable with at most 1000
characters, `image` a nullable string. -/
def parseProfile (f : ProfileForm) : ParseResult ProfileValue :=
  let nameErrs : List String :=
    match f.name with
    | none => ["Name is required"]
    | some n => if n.length ≤ 255 then [] else ["Name must be less than 255 characters"]
  let emailErrs : List String :=
    match f.email with
    | none => ["Email is required"]
    | some e => if zodIsEmail e then [] else ["Invalid email"]
  let bioErrs : List String :=
    match f.bio with
    | none => []
    | some b => if b.length ≤ 1000 then [] else ["Bio must be less than 1000 characters"]
  let fieldErrs :=
    (if nameErrs.isEmpty then [] else [("name", nameErrs)]) ++
    (if emailErrs.isEmpty then [] else [("email", emailErrs)]) ++
    (if bioErrs.isEmpty then [] else [("bio", bioErrs)])
  match f.name, f.email with
  | some n, some e =>
    if fieldErrs.isEmpty then
      .ok { image := f.image, name := n, email := e, bio := f.bio }
    else .err fieldErrs
  | _, _ => .err fieldErrs

/-! ## Handler responses -/

/-- The conform submission reply carried by a handler's JSON response:
the error reply of a failed parse (`submission.reply()` after a failed
submission), an error reply with supplied field errors
(`submission.reply({ fieldErrors })`), or a success reply
(`submission.reply()` / `submission.reply({ resetForm: true })`). -/
inductive SubmissionReply where
  | validationErrors (fieldErrors : List (String × List String))
  | fieldErrors (fieldErrors : List (String × List String))
  | ok (resetForm : Bool)
  deriving DecidableEq, Repr

/-- The observable HTTP response of a route action: its submission reply,
status code and optional `Set-Cookie` header. -/
structure ActionResponse where
  reply : SubmissionReply
  status : Nat
  setCookie : Option Cookie
  deriving DecidableEq, Repr

/-- Full outcome of a database-touching action: the response, the database
after the action, and the log of row operations. -/
structure ActionOutput where
  response : ActionResponse
  db : DB
  ops : List DbOp
  deriving DecidableEq, Repr

/-! ## The authenticator and the sign-in action -/

/-- Outcome of `authenticator.authenticate('user-pass', request,
{ successRedirect })`: the thrown 302 redirect response carrying the fresh
session cookie, or an authorization failure. -/
inductive AuthResult where
  | redirect (identity : SessionUser) (cookie : Cookie)
  | failure
  deriving DecidableEq, Repr

/-- Modelled from the spec: the form strategy of
`app/services/auth/auth.server.ts` is not under `src/`.  Per §4.3, given
submitted credentials it looks the user up by email, verifies the password
via the hasher, on success establishes a session and redirects, and on
failure (no such user, or wrong password — indistinguishably) fails. -/
def authenticate (db : DB) (email password : String) : AuthResult :=
  match findByEmail db email with
  | none => .failure
  | some u =>
    if bcryptCompare password u.password then
      .redirect (toSessionUser u)
        (commitSession (sessionSet (getSession none) (toSessionUser u)))
    else .failure

/-- Outcome of the sign-in action: its response and whether
`authenticator.authenticate` was invoked. -/
structure SignInOutput where
  response : ActionResponse
  authCalled : Bool
  deriving DecidableEq, Repr

/-- The `action` of `src/app/routes/_auth+/signin.tsx`: parse the
submission with `signInSchema` and return its error reply when it fails;
otherwise authenticate.  A thrown 302 becomes
`json(submission.reply(), e)` — the redirect with the session cookie — and
any other failure becomes the generic `Invalid email or password` field
error on `email` with status 401. -/
def actionSignIn (db : DB) (form : SignInForm) : SignInOutput :=
  match parseSignIn form with
  | .err es =>
    { response := { reply := .validationErrors es, status := 200, setCookie := none },
      authCalled := false }
  | .ok v =>
    match authenticate db v.email v.password with
    | .redirect _ cookie =>
      { response := { reply := .ok false, status := 302, setCookie := some cookie },
        authCalled := true }
    | .failure =>
      { response :=
          { reply := .fieldErrors [("email", ["Invalid email or password"])],
            status := 401, setCookie := none },
        authCalled := true }

/-! ## The password-change action -/

/-- The `action` of
`src/app/routes/_public+/$userId+/password_change+/_index.tsx`.
Inputs: the database, the session identity returned by
`authenticator.isAuthenticated`, the `userId` URL parameter (present in
the route path but never read by the action), the submitted form, and an
oracle `updateThrows` saying whether the awaited `updatePassword` call
throws (the pure model of `updatePassword` never throws by itself; the
`catch` branch of the route only runs on an exception from the runtime,
whose partial effects are not modelled).  Control flow of the source:
validation errors are returned first, then the signed-in check, then
`updatePassword` is called with the session identity's id and its result
is discarded — `reply({ resetForm: true })` is returned whenever the call
resolves. -/
def actionPasswordChange (db : DB) (sessionUser : Option SessionUser)
    (_params : String) (form : PasswordChangeForm) (updateThrows : Bool) :
    ActionOutput :=
  match parsePasswordChange form with
  | .err es =>
    { response := { reply := .validationErrors es, status := 200, setCookie := none },
      db := db, ops := [] }
  | .ok v =>
    match sessionUser with
    | none =>
      { response :=
          { reply := .fieldErrors
              [("currentPassword", ["You must be signed in to change your password"])],
            status := 200, setCookie := none },
        db := db, ops := [] }
    | some user =>
      if updateThrows then
        { response :=
            { reply := .fieldErrors [("currentPassword", ["Current password is incorrect"])],
              status := 200, setCookie := none },
          db := db, ops := [] }
      else
        let result := updatePassword db
          { userId := user.id, currentPassword := v.currentPassword,
            newPassword := v.newPassword }
        { response := { reply := .ok true, status := 200, setCookie := none },
          db := result.2.1, ops := result.2.2 }

/-! ## The profile-update action -/

/-- Input of the `updateProfile` service call as made by the profile-update
route. -/
structure UpdateProfileInput where
  userId : String
  image : Option String
  name : String
  email : String
  bio : Option String
  deriving DecidableEq, Repr

/-- The record returned by `updateProfile`, destructured by the route as
`{ bio: _, ...newUserData }`. -/
structure ProfileRecord where
  id : String
  name : String
  email : String
  image : Option String
  bio : Option String
  deriving DecidableEq, Repr

/-- Modelled from the spec:
`app/services/profile/updateProfile.server.ts` is not under `src/`.  Per
§6 the store collaborator exposes `updateUserProfile` with standard CRUD
semantics: it writes the submitted fields to the target user's row (the
bio lives in the 1:1 `Profile` table, which this model of the store does
not carry) and returns the updated record. -/
def updateProfile (db : DB) (input : UpdateProfileInput) :
    ProfileRecord × DB × List DbOp :=
  ({ id := input.userId, name := input.name, email := input.email,
     image := input.image, bio := input.bio },
   db.map (fun w =>
     if w.id = input.userId then
       { w with name := input.name, email := input.email, image := input.image }
     else w),
   [DbOp.writeUser input.userId])

/-- `{ ...user, ...newUserData }` from the profile-update route: the
session identity overridden by the updated record's fields (`bio` was
destructured away; `role` has no counterpart in the record and survives
from the session identity). -/
def mergeIdentity (user : SessionUser) (r : ProfileRecord) : SessionUser :=
  { id := r.id, email := r.email, name := r.name, role := user.role,
    image := r.image }

/-- The profile-update `action`
(route `_public+/$userId+/edit`, bundled after the sign-in route in the
provided sources).  Control flow of the source: the signed-in check first,
then the authorization check `user.id !== params.userId`, then the
validation-status check, then `updateProfile`; on success the session is
read from the request cookie, its identity set to
`{ ...user, ...newUserData }`, committed, and the committed cookie is
returned as the `Set-Cookie` header of the success reply. -/
def actionUpdateProfile (db : DB) (sessionUser : Option SessionUser)
    (params : String) (reqCookie : Option Cookie) (form : ProfileForm) :
    ActionOutput :=
  match sessionUser with
  | none =>
    { response :=
        { reply := .fieldErrors [("userId", ["You must be signed in to update your profile"])],
          status := 200, setCookie := none },
      db := db, ops := [] }
  | some user =>
    if user.id ≠ params then
      { response :=
          { reply := .fieldErrors [("userId", ["You can only update your own profile"])],
            status := 200, setCookie := none },
        db := db, ops := [] }
    else
      match parseProfile form with
      | .err es =>
        { response := { reply := .validationErrors es, status := 200, setCookie := none },
          db := db, ops := [] }
      | .ok v =>
        let result := updateProfile db
          { userId := params, image := v.image, name := v.name,
            email := v.email, bio := v.bio }
        let newUserData := result.1
        let session := getSession reqCookie
        let committed := commitSession (sessionSet session (mergeIdentity user newUserData))
        { response := { reply := .ok false, status := 200, setCookie := some committed },
          db := result.2.1, ops := result.2.2 }

/-! ## Shared lemmas and concrete inputs -/

/-- Appending a fixed string on the left is injective. -/
theorem append_left_cancel_str {s p q : String} (h : s ++ p = s ++ q) : p = q := by
  have hd : s.data ++ p.data = s.data ++ q.data := by
    have hdata := congrArg String.data h
    simpa using hdata
  have hpq : p.data = q.data := List.append_cancel_left hd
  cases p
  cases q
  exact congrArg String.mk (by simpa using hpq)

/-- The modelled hasher is injective at the fixed cost factor. -/
theorem bcryptHash_inj {p q : String} (h : bcryptHash p 12 = bcryptHash q 12) :
    p = q := by
  unfold bcryptHash at h
  exact append_left_cancel_str h

/-- The password shape checks succeed exactly on strings of length 8..255
containing a letter and a digit. -/
theorem zodPasswordIssues_eq_nil (p : String) :
    zodPasswordIssues p = [] ↔
      (8 ≤ p.length ∧ p.length ≤ 255 ∧
        p.data.any Char.isAlpha = true ∧ p.data.any Char.isDigit = true) := by
  unfold zodPasswordIssues
  by_cases h8 : 8 ≤ p.length <;> by_cases h255 : p.length ≤ 255 <;>
    by_cases hA : p.data.any Char.isAlpha = true <;>
    by_cases hD : p.data.any Char.isDigit = true <;>
    simp [h8, h255, hA, hD]

/-- A stored user row used as concrete input. -/
def demoUser : DBUser :=
  { id := "u1", email := "alice@example.com",
    password := bcryptHash "Passw0rd" 12, name := "Alice",
    image := none, role := .USER }

/-- A one-row database holding `demoUser`. -/
def demoDb : DB := [demoUser]

/-- The session identity of `demoUser`. -/
def demoIdentity : SessionUser := toSessionUser demoUser

/-- A valid password-change submission for `demoUser`. -/
def demoForm : PasswordChangeForm :=
  { currentPassword := some "Passw0rd", newPassword := some "NewPass1",
    confirmNewPassword := some "NewPass1" }

/-! ## Claims -/

/-- C3: for every call to `updatePassword`, a missing user row yields the
error `User not found` and a failed verification of the current password
against the stored hash yields `Current password is incorrect`; in both
cases the database (hence the stored hash) is unchanged and no write is
issued (the operation log holds only the read). -/
theorem C3_updatePassword_error_paths (db : DB) (input : UpdatePasswordInput) :
    (findById db input.userId = none →
      updatePassword db input =
        (some "User not found", db, [DbOp.readUser input.userId])) ∧
    (∀ u : DBUser, findById db input.userId = some u →
      bcryptCompare input.currentPassword u.password = false →
      updatePassword db input =
        (some "Current password is incorrect", db, [DbOp.readUser input.userId])) := by
  constructor
  · intro h
    simp [updatePassword, h]
  · intro u hu hc
    simp [updatePassword, hu, hc]

/-- Witness for C3 at concrete inputs: an empty store, and `demoDb` with a
wrong current password. -/
theorem C3_updatePassword_error_paths_witness :
    updatePassword [] { userId := "u1", currentPassword := "x", newPassword := "y" } =
      (some "User not found", [], [DbOp.readUser "u1"]) ∧
    updatePassword demoDb
        { userId := "u1", currentPassword := "Wrong999", newPassword := "y" } =
      (some "Current password is incorrect", demoDb, [DbOp.readUser "u1"]) := by
  constructor
  · exact (C3_updatePassword_error_paths []
      { userId := "u1", currentPassword := "x", newPassword := "y" }).1 (by decide)
  · exact (C3_updatePassword_error_paths demoDb
      { userId := "u1", currentPassword := "Wrong999", newPassword := "y" }).2
      demoUser (by decide) (by decide)

/-- C5: when the target row exists and the current password verifies,
`updatePassword` persists the hash of the new password at cost factor 12
as that single row's password (rows with a different id are untouched by
the row-wise update keyed on `userId`), returns `null`, and the log shows
the one read and one write of that row. -/
theorem C5_updatePassword_success (db : DB) (input : UpdatePasswordInput)
    (u : DBUser) (hu : findById db input.userId = some u)
    (hc : bcryptCompare input.currentPassword u.password = true) :
    updatePassword db input =
      (none,
       db.map (fun w =>
         if w.id = input.userId then
           { w with password := bcryptHash input.newPassword 12 }
         else w),
       [DbOp.readUser input.userId, DbOp.writeUser input.userId]) := by
  simp [updatePassword, hu, hc]

/-- Witness for C5: changing `demoUser`'s password from `Passw0rd` to
`NewPass1` stores the new hash and returns `null`. -/
theorem C5_updatePassword_success_witness :
    updatePassword demoDb
        { userId := "u1", currentPassword := "Passw0rd", newPassword := "NewPass1" } =
      (none, [{ demoUser with password := bcryptHash "NewPass1" 12 }],
       [DbOp.readUser "u1", DbOp.writeUser "u1"]) := by
  have h := C5_updatePassword_success demoDb
    { userId := "u1", currentPassword := "Passw0rd", newPassword := "NewPass1" }
    demoUser (by decide) (by decide)
  simpa [demoDb, demoUser] using h

/-- C7: the hasher round trip — verifying a plaintext against its own hash
succeeds, and verifying any other plaintext against that hash fails. -/
theorem C7_hash_verify_roundtrip :
    (∀ p : String, bcryptCompare p (bcryptHash p 12) = true) ∧
    (∀ p1 p2 : String, p1 ≠ p2 → bcryptCompare p1 (bcryptHash p2 12) = false) := by
  constructor
  · intro p
    simp [bcryptCompare]
  · intro p1 p2 hne
    unfold bcryptCompare
    rw [beq_eq_false_iff_ne]
    intro h
    exact hne (bcryptHash_inj h).symm

/-- Witness for C7 at concrete plaintexts. -/
theorem C7_hash_verify_roundtrip_witness :
    bcryptCompare "Passw0rd" (bcryptHash "Passw0rd" 12) = true ∧
    bcryptCompare "NewPass1" (bcryptHash "Passw0rd" 12) = false := by
  constructor
  · exact C7_hash_verify_roundtrip.1 "Passw0rd"
  · exact C7_hash_verify_roundtrip.2 "NewPass1" "Passw0rd" (by decide)

/-- C1 counterexample: a password-change request with the valid session of
`demoUser` (id `u1`), URL parameter `userId = u2 ≠ u1` and a valid
payload is NOT rejected with an authorization error — the action replies
with success (`resetForm: true`) and the store is both read and written
(`demoUser`'s own row is updated), because the password-change action
never compares the URL parameter with the session identity. -/
theorem C1_counterexample :
    demoIdentity.id ≠ "u2" ∧
    (actionPasswordChange demoDb (some demoIdentity) "u2" demoForm false).response.reply =
      SubmissionReply.ok true ∧
    (actionPasswordChange demoDb (some demoIdentity) "u2" demoForm false).ops =
      [DbOp.readUser "u1", DbOp.writeUser "u1"] ∧
    (actionPasswordChange demoDb (some demoIdentity) "u2" demoForm false).db ≠ demoDb := by
  refine ⟨by decide, by decide, by decide, by decide⟩

/-- C1 amended: the profile-update action rejects a request whose URL
`userId` differs from the session identity with the authorization field
error tied to `userId` and performs no store access, regardless of payload
validity; the password-change action, by contrast, ignores the URL
`userId` parameter entirely (its outcome is independent of it) and
operates on the session identity instead, so a mismatched parameter
produces no authorization error there. -/
theorem C1_authorization_amended (db : DB) (u : SessionUser) (t : String)
    (ht : u.id ≠ t) :
    (∀ (reqCookie : Option Cookie) (pform : ProfileForm),
      actionUpdateProfile db (some u) t reqCookie pform =
        { response :=
            { reply := .fieldErrors [("userId", ["You can only update your own profile"])],
              status := 200, setCookie := none },
          db := db, ops := [] }) ∧
    (∀ (pcform : PasswordChangeForm) (updateThrows : Bool) (t2 : String),
      actionPasswordChange db (some u) t pcform updateThrows =
        actionPasswordChange db (some u) t2 pcform updateThrows) := by
  constructor
  · intro reqCookie pform
    simp [actionUpdateProfile, ht]
  · intro pcform updateThrows t2
    rfl

/-- Witness for the amended C1 at a concrete mismatched request. -/
theorem C1_authorization_amended_witness :
    actionUpdateProfile demoDb (some demoIdentity) "u2" none
        { image := none, name := some "Mallory", email := some "m@example.com",
          bio := none } =
      { response :=
          { reply := .fieldErrors [("userId", ["You can only update your own profile"])],
            status := 200, setCookie := none },
        db := demoDb, ops := [] } ∧
    actionPasswordChange demoDb (some demoIdentity) "u2" demoForm false =
      actionPasswordChange demoDb (some demoIdentity) "u1" demoForm false := by
  constructor
  · exact (C1_authorization_amended demoDb demoIdentity "u2" (by decide)).1 none
      { image := none, name := some "Mallory", email := some "m@example.com",
        bio := none }
  · exact (C1_authorization_amended demoDb demoIdentity "u2" (by decide)).2
      demoForm false "u1"

/-- C2: for an authenticated password-change request whose input passes
validation, the action replies with success (`resetForm: true`) whenever
the `updatePassword` call resolves without throwing — its resolved value,
error or not, is discarded — and the route's `Current password is
incorrect` field error appears exactly when the call throws. -/
theorem C2_success_despite_error_result (db : DB) (u : SessionUser)
    (params : String) (form : PasswordChangeForm) (v : PasswordChangeValue)
    (hv : parsePasswordChange form = .ok v) :
    (actionPasswordChange db (some u) params form false).response.reply =
      SubmissionReply.ok true ∧
    (actionPasswordChange db (some u) params form true).response.reply =
      SubmissionReply.fieldErrors
        [("currentPassword", ["Current password is incorrect"])] := by
  constructor <;> simp [actionPasswordChange, hv]

/-- Witness for C2 at a concrete input where `updatePassword` resolves to
the `User not found` error value (empty store): the reply is still the
success reply. -/
theorem C2_success_despite_error_result_witness :
    (updatePassword []
        { userId := demoIdentity.id, currentPassword := "Passw0rd",
          newPassword := "NewPass1" }).1 = some "User not found" ∧
    (actionPasswordChange [] (some demoIdentity) "u1" demoForm false).response.reply =
      SubmissionReply.ok true ∧
    (actionPasswordChange [] (some demoIdentity) "u1" demoForm true).response.reply =
      SubmissionReply.fieldErrors
        [("currentPassword", ["Current password is incorrect"])] := by
  refine ⟨by decide, ?_, ?_⟩
  · exact (C2_success_despite_error_result [] demoIdentity "u1" demoForm
      { currentPassword := "Passw0rd", newPassword := "NewPass1",
        confirmNewPassword := "NewPass1" } (by decide)).1
  · exact (C2_success_despite_error_result [] demoIdentity "u1" demoForm
      { currentPassword := "Passw0rd", newPassword := "NewPass1",
        confirmNewPassword := "NewPass1" } (by decide)).2

/-- The password-change failure conditions exactly as the claim C4 lists
them (a missing `newPassword` is read as the empty submission, which is
shorter than 8 characters). -/
def c4FailureCondition (f : PasswordChangeForm) : Prop :=
  f.currentPassword = none ∨
  (f.newPassword.getD "").length < 8 ∨
  255 < (f.newPassword.getD "").length ∨
  (f.newPassword.getD "").data.any Char.isAlpha = false ∨
  (f.newPassword.getD "").data.any Char.isDigit = false ∨
  f.confirmNewPassword ≠ f.newPassword

/-- C4: a password-change submission fails validation exactly under the
claim's conditions, and a failed submission is answered with the
field-level validation errors while the store is neither read nor written
(`updatePassword` is never reached), for any database, session and URL
parameter; input satisfying all the checks passes validation. -/
theorem C4_validation_gate (f : PasswordChangeForm) :
    ((parsePasswordChange f).isErr = true ↔ c4FailureCondition f) ∧
    (∀ es, parsePasswordChange f = .err es →
      ∀ (db : DB) (su : Option SessionUser) (t : String) (updateThrows : Bool),
        actionPasswordChange db su t f updateThrows =
          { response := { reply := .validationErrors es, status := 200, setCookie := none },
            db := db, ops := [] }) := by
  constructor
  · rcases hc : f.currentPassword with _ | c
    · simp [parsePasswordChange, c4FailureCondition, hc, ParseResult.isErr]
    · rcases hn : f.newPassword with _ | n
      · simp [parsePasswordChange, c4FailureCondition, hc, hn, ParseResult.isErr]
      · rcases hcf : f.confirmNewPassword with _ | cf
        · simp [parsePasswordChange, c4FailureCondition, hc, hn, hcf,
            ParseResult.isErr]
        · by_cases hiss : zodPasswordIssues n = []
          · have hpol := (zodPasswordIssues_eq_nil n).1 hiss
            by_cases hncf : n = cf
            · subst hncf
              have hok : parsePasswordChange f =
                  .ok { currentPassword := c, newPassword := n,
                        confirmNewPassword := n } := by
                simp [parsePasswordChange, hc, hn, hcf, hiss]
              rw [hok]
              simp only [ParseResult.isErr, Bool.false_eq_true, false_iff]
              intro hbad
              unfold c4FailureCondition at hbad
              rw [hc, hn, hcf] at hbad
              simp only [Option.getD_some] at hbad
              rcases hbad with h | h | h | h | h | h
              · exact Option.noConfusion h
              · omega
              · omega
              · rw [hpol.2.2.1] at h
                exact Bool.noConfusion h
              · rw [hpol.2.2.2] at h
                exact Bool.noConfusion h
              · exact h rfl
            · have herr : parsePasswordChange f =
                  .err [("confirmNewPassword", ["Passwords do not match"])] := by
                simp [parsePasswordChange, hc, hn, hcf, hiss, hncf]
              rw [herr]
              simp only [ParseResult.isErr, true_iff]
              unfold c4FailureCondition
              rw [hc, hn, hcf]
              refine Or.inr (Or.inr (Or.inr (Or.inr (Or.inr ?_))))
              intro h
              exact hncf (Option.some.inj h).symm
          · have herr : parsePasswordChange f =
                .err [("newPassword", zodPasswordIssues n)] := by
              simp [parsePasswordChange, hc, hn, hcf, hiss]
            rw [herr]
            simp only [ParseResult.isErr, true_iff]
            have hpol : ¬(8 ≤ n.length ∧ n.length ≤ 255 ∧
                n.data.any Char.isAlpha = true ∧ n.data.any Char.isDigit = true) :=
              fun hp => hiss ((zodPasswordIssues_eq_nil n).2 hp)
            unfold c4FailureCondition
            rw [hc, hn, hcf]
            simp only [Option.getD_some]
            rcases Nat.lt_or_ge n.length 8 with h8 | h8
            · exact Or.inr (Or.inl h8)
            rcases Nat.lt_or_ge 255 n.length with h255 | h255
            · exact Or.inr (Or.inr (Or.inl h255))
            cases hA : n.data.any Char.isAlpha
            · exact Or.inr (Or.inr (Or.inr (Or.inl rfl)))
            cases hD : n.data.any Char.isDigit
            · exact Or.inr (Or.inr (Or.inr (Or.inr (Or.inl rfl))))
            exact absurd ⟨h8, h255, hA, hD⟩ hpol
  · intro es hes db su t updateThrows
    simp [actionPasswordChange, hes]

/-- Witness for C4 at a concrete submission with mismatched confirmation:
the parse fails, the claim's condition holds, and the action performs no
store access. -/
theorem C4_validation_gate_witness :
    ((parsePasswordChange
        { currentPassword := some "Passw0rd", newPassword := some "NewPass1",
          confirmNewPassword := some "Other123" }).isErr = true ↔
      c4FailureCondition
        { currentPassword := some "Passw0rd", newPassword := some "NewPass1",
          confirmNewPassword := some "Other123" }) ∧
    actionPasswordChange demoDb (some demoIdentity) "u1"
        { currentPassword := some "Passw0rd", newPassword := some "NewPass1",
          confirmNewPassword := some "Other123" } false =
      { response :=
          { reply := .validationErrors [("confirmNewPassword", ["Passwords do not match"])],
            status := 200, setCookie := none },
        db := demoDb, ops := [] } := by
  constructor
  · exact (C4_validation_gate
      { currentPassword := some "Passw0rd", newPassword := some "NewPass1",
        confirmNewPassword := some "Other123" }).1
  · exact (C4_validation_gate
      { currentPassword := some "Passw0rd", newPassword := some "NewPass1",
        confirmNewPassword := some "Other123" }).2
      [("confirmNewPassword", ["Passwords do not match"])] (by decide)
      demoDb (some demoIdentity) "u1" false

/-- C6: two failing sign-in submissions that pass validation — one whose
email has no stored row, one whose email is stored but whose password does
not verify — receive identical responses: the `Invalid email or password`
field error on the `email` field with status 401 and no cookie. -/
theorem C6_signin_indistinguishable (db : DB) (f1 f2 : SignInForm)
    (v1 v2 : SignInValue) (u : DBUser)
    (h1 : parseSignIn f1 = .ok v1) (h2 : parseSignIn f2 = .ok v2)
    (hnf : findByEmail db v1.email = none)
    (hf : findByEmail db v2.email = some u)
    (hw : bcryptCompare v2.password u.password = false) :
    actionSignIn db f1 = actionSignIn db f2 ∧
    (actionSignIn db f1).response =
      { reply := .fieldErrors [("email", ["Invalid email or password"])],
        status := 401, setCookie := none } := by
  constructor <;>
    simp [actionSignIn, authenticate, h1, h2, hnf, hf, hw]

/-- Witness for C6: against `demoDb`, an unknown email and a known email
with a wrong password produce the same 401 response. -/
theorem C6_signin_indistinguishable_witness :
    actionSignIn demoDb { email := some "zoe@example.com", password := some "Wrong999" } =
      actionSignIn demoDb { email := some "alice@example.com", password := some "Wrong999" } ∧
    (actionSignIn demoDb
        { email := some "zoe@example.com", password := some "Wrong999" }).response =
      { reply := .fieldErrors [("email", ["Invalid email or password"])],
        status := 401, setCookie := none } := by
  exact C6_signin_indistinguishable demoDb
    { email := some "zoe@example.com", password := some "Wrong999" }
    { email := some "alice@example.com", password := some "Wrong999" }
    { email := "zoe@example.com", password := "Wrong999" }
    { email := "alice@example.com", password := "Wrong999" }
    demoUser (by decide) (by decide) (by decide) (by decide) (by decide)

/-- C8: a successful profile update reads the session from the request
cookie, sets its identity to the authenticated user merged with the
updated fields (`{ ...user, ...newUserData }`: the updated name, email and
image over the session's id and role), commits it, and returns the
committed cookie as the `Set-Cookie` header of the success reply. -/
theorem C8_profile_update_commits_cookie (db : DB) (u : SessionUser)
    (reqCookie : Option Cookie) (form : ProfileForm) (v : ProfileValue)
    (hv : parseProfile form = .ok v) :
    (actionUpdateProfile db (some u) u.id reqCookie form).response.setCookie =
      some (commitSession (sessionSet (getSession reqCookie)
        (mergeIdentity u (updateProfile db
          { userId := u.id, image := v.image, name := v.name,
            email := v.email, bio := v.bio }).1))) ∧
    mergeIdentity u (updateProfile db
        { userId := u.id, image := v.image, name := v.name,
          email := v.email, bio := v.bio }).1 =
      { id := u.id, email := v.email, name := v.name, role := u.role,
        image := v.image } ∧
    (actionUpdateProfile db (some u) u.id reqCookie form).response.reply =
      SubmissionReply.ok false := by
  refine ⟨?_, ?_, ?_⟩ <;>
    simp [actionUpdateProfile, hv, updateProfile, mergeIdentity]

/-- Witness for C8: a concrete successful profile update returns the
committed cookie carrying the merged identity. -/
theorem C8_profile_update_commits_cookie_witness :
    (actionUpdateProfile demoDb (some demoIdentity) "u1" none
        { image := none, name := some "Alicia", email := some "alicia@example.com",
          bio := some "hello" }).response.setCookie =
      some (commitSession (sessionSet (getSession none)
        (mergeIdentity demoIdentity (updateProfile demoDb
          { userId := "u1", image := none, name := "Alicia",
            email := "alicia@example.com", bio := some "hello" }).1))) ∧
    mergeIdentity demoIdentity (updateProfile demoDb
        { userId := "u1", image := none, name := "Alicia",
          email := "alicia@example.com", bio := some "hello" }).1 =
      { id := "u1", email := "alicia@example.com", name := "Alicia",
        role := demoIdentity.role, image := none } ∧
    (actionUpdateProfile demoDb (some demoIdentity) "u1" none
        { image := none, name := some "Alicia", email := some "alicia@example.com",
          bio := some "hello" }).response.reply = SubmissionReply.ok false := by
  have h := C8_profile_update_commits_cookie demoDb demoIdentity none
    { image := none, name := some "Alicia", email := some "alicia@example.com",
      bio := some "hello" }
    { image := none, name := "Alicia", email := "alicia@example.com",
      bio := some "hello" } (by decide)
  simpa [demoIdentity, toSessionUser, demoUser] using h

/-- C9: the password-change action's outcome is independent of the URL
`userId` parameter; when the submission parses, the database it leaves
behind is the one `updatePassword` produces for the session identity's id
as the target, and every store operation it performs is a read or a write
of the session user's own row. -/
theorem C9_targets_session_identity (db : DB) (u : SessionUser)
    (form : PasswordChangeForm) (updateThrows : Bool) (t1 t2 : String) :
    actionPasswordChange db (some u) t1 form updateThrows =
      actionPasswordChange db (some u) t2 form updateThrows ∧
    (∀ v, parsePasswordChange form = .ok v → updateThrows = false →
      (actionPasswordChange db (some u) t1 form updateThrows).db =
        (updatePassword db
          { userId := u.id, currentPassword := v.currentPassword,
            newPassword := v.newPassword }).2.1) ∧
    (∀ op ∈ (actionPasswordChange db (some u) t1 form updateThrows).ops,
      op = DbOp.readUser u.id ∨ op = DbOp.writeUser u.id) := by
  refine ⟨rfl, ?_, ?_⟩
  · intro v hv hthrows
    subst hthrows
    simp [actionPasswordChange, hv]
  · intro op hop
    rcases hv : parsePasswordChange form with v | es
    · rcases updateThrows
      · simp only [actionPasswordChange, hv] at hop
        unfold updatePassword at hop
        rcases hf : findById db u.id with _ | w
        · simp [hf] at hop
          simp [hop]
        · by_cases hcmp : bcryptCompare v.currentPassword w.password
          · simp [hf, hcmp] at hop
            rcases hop with h | h <;> simp [h]
          · simp [hf, hcmp] at hop
            simp [hop]
      · simp [actionPasswordChange, hv] at hop
    · simp [actionPasswordChange, hv] at hop

/-- Witness for C9 at a concrete request: parameter-independence and the
operation log touching only `demoUser`'s row. -/
theorem C9_targets_session_identity_witness :
    (actionPasswordChange demoDb (some demoIdentity) "u2" demoForm false =
      actionPasswordChange demoDb (some demoIdentity) "u1" demoForm false) ∧
    (actionPasswordChange demoDb (some demoIdentity) "u2" demoForm false).db =
      (updatePassword demoDb
        { userId := demoIdentity.id, currentPassword := "Passw0rd",
          newPassword := "NewPass1" }).2.1 ∧
    (DbOp.readUser "u1" = DbOp.readUser demoIdentity.id ∨
      DbOp.readUser "u1" = DbOp.writeUser demoIdentity.id) := by
  have h := C9_targets_session_identity demoDb demoIdentity demoForm false "u2" "u1"
  refine ⟨h.1, ?_, ?_⟩
  · exact h.2.1
      { currentPassword := "Passw0rd", newPassword := "NewPass1",
        confirmNewPassword := "NewPass1" } (by decide) rfl
  · exact h.2.2 (DbOp.readUser "u1") (by decide)

/-- C10: a sign-in submission whose password violates the policy (length
between 8 and 255 with at least one letter and one digit) is answered
with non-empty field-level validation errors, with no cookie issued, and
`authenticator.authenticate` is never invoked. -/
theorem C10_policy_gates_authenticate (db : DB) (form : SignInForm) (p : String)
    (hp : form.password = some p)
    (hbad : ¬(8 ≤ p.length ∧ p.length ≤ 255 ∧
      p.data.any Char.isAlpha = true ∧ p.data.any Char.isDigit = true)) :
    (actionSignIn db form).authCalled = false ∧
    (∃ es, es ≠ [] ∧ (actionSignIn db form).response =
      { reply := SubmissionReply.validationErrors es, status := 200,
        setCookie := none }) := by
  have hiss : zodPasswordIssues p ≠ [] :=
    fun h => hbad ((zodPasswordIssues_eq_nil p).1 h)
  have hpe : (zodPasswordIssues p).isEmpty = false := by
    rcases h : zodPasswordIssues p with _ | ⟨a, as⟩
    · exact absurd h hiss
    · rfl
  rcases he : form.email with _ | e
  · have hes : parseSignIn form = .err
        [("email", ["Email is required"]), ("password", zodPasswordIssues p)] := by
      simp [parseSignIn, he, hp, hpe]
    exact ⟨by simp [actionSignIn, hes],
      [("email", ["Email is required"]), ("password", zodPasswordIssues p)],
      by simp, by simp [actionSignIn, hes]⟩
  · cases hz : zodIsEmail e
    · by_cases hl : e.length ≤ 255
      · have hes : parseSignIn form = .err
            [("email", ["Please enter a valid email address"]),
             ("password", zodPasswordIssues p)] := by
          simp [parseSignIn, he, hp, hpe, hz, hl]
        exact ⟨by simp [actionSignIn, hes],
          [("email", ["Please enter a valid email address"]),
           ("password", zodPasswordIssues p)],
          by simp, by simp [actionSignIn, hes]⟩
      · have hes : parseSignIn form = .err
            [("email", ["Please enter a valid email address",
              "Email must be less than 255 characters"]),
             ("password", zodPasswordIssues p)] := by
          simp [parseSignIn, he, hp, hpe, hz, hl]
        exact ⟨by simp [actionSignIn, hes],
          [("email", ["Please enter a valid email address",
            "Email must be less than 255 characters"]),
           ("password", zodPasswordIssues p)],
          by simp, by simp [actionSignIn, hes]⟩
    · by_cases hl : e.length ≤ 255
      · have hes : parseSignIn form = .err
            [("password", zodPasswordIssues p)] := by
          simp [parseSignIn, he, hp, hpe, hz, hl]
        exact ⟨by simp [actionSignIn, hes],
          [("password", zodPasswordIssues p)],
          by simp, by simp [actionSignIn, hes]⟩
      · have hes : parseSignIn form = .err
            [("email", ["Email must be less than 255 characters"]),
             ("password", zodPasswordIssues p)] := by
          simp [parseSignIn, he, hp, hpe, hz, hl]
        exact ⟨by simp [actionSignIn, hes],
          [("email", ["Email must be less than 255 characters"]),
           ("password", zodPasswordIssues p)],
          by simp, by simp [actionSignIn, hes]⟩

/-- Witness for C10: a 6-character password is rejected by validation and
the authenticator is never invoked. -/
theorem C10_policy_gates_authenticate_witness :
    (actionSignIn demoDb
        { email := some "alice@example.com", password := some "short1" }).authCalled =
      false ∧
    (∃ es, es ≠ [] ∧
      (actionSignIn demoDb
          { email := some "alice@example.com", password := some "short1" }).response =
        { reply := SubmissionReply.validationErrors es, status := 200,
          setCookie := none }) := by
  exact C10_policy_gates_authenticate demoDb
    { email := some "alice@example.com", password := some "short1" }
    "short1" rfl (by decide)

end MsTechBlog
